import Mathlib

/-!
Shallow embedding of the ESP32 demo repository (six single-file programs).
The parts modelled here are the ones the verified properties are about:

* `Traffic` embeds `src/Project_6/main/main.c`, the traffic-light finite
  state machine (states, duration table, context struct, the per-state
  handlers, `transition_to_state`, `state_machine_run`, and the
  initialization performed by `app_main`).  Peripheral calls
  (`gpio_set_level`, `ledc_set_duty`) are modelled by their effect on an
  explicit output record (LED levels, buzzer duty); `millis()` is modelled
  as a pure function of the microsecond timer reading that is passed to
  each call, and all 32-bit unsigned arithmetic is done in `Nat` modulo
  `2^32`.
* `Siren` embeds the frequency-ramp step of `src/Project_2/main/main.c`.
* `Melody` embeds `calc_duration` and the note table of
  `src/Project_3/main/main.c`.
* `Morse` embeds the SOS pattern table and `transmit_symbol` of
  `src/Project_4/main/main.c`.
-/

namespace Traffic

/-- The modulus of `uint32_t` arithmetic, `2^32`. -/
def U32 : Nat := 4294967296

/-- C unsigned 32-bit subtraction `a - b`: both operands are reduced to
their `uint32_t` value and the difference is taken modulo `2^32`. -/
def usub32 (a b : Nat) : Nat :=
  (a % U32 + (U32 - b % U32)) % U32

/-- `millis()`: `(uint32_t)(esp_timer_get_time() / 1000ULL)`, as a pure
function of the microsecond timer reading `t_us`. -/
def millis (t_us : Nat) : Nat := (t_us / 1000) % U32

-- Enum `TrafficLightState` (C enum values).
def STATE_RED : Nat := 0
def STATE_RED_TO_YELLOW : Nat := 1
def STATE_GREEN : Nat := 2
def STATE_GREEN_TO_YELLOW : Nat := 3
def STATE_MAX : Nat := 4

-- Timing configuration macros (milliseconds).
def RED_DURATION : Nat := 5000
def RED_TO_YELLOW_DURATION : Nat := 2000
def GREEN_DURATION : Nat := 5000
def GREEN_TO_YELLOW_DURATION : Nat := 2000
def BEEP_INTERVAL : Nat := 1000
def BEEP_DURATION : Nat := 200

/-- `LEDC_DUTY`: the 50% duty value written to the buzzer channel. -/
def LEDC_DUTY : Nat := 4096

/-- `static const uint32_t state_durations[]`. -/
def state_durations : List Nat :=
  [RED_DURATION, RED_TO_YELLOW_DURATION, GREEN_DURATION, GREEN_TO_YELLOW_DURATION]

/-- `TrafficLightContext`.  `current_state` is kept as a raw integer (the C
enum value) so that the out-of-range dispatch branch is representable. -/
structure TrafficLightContext where
  current_state : Nat
  state_start_time : Nat
  last_beep_time : Nat
  beep_active : Bool
deriving DecidableEq

/-- Levels of the three traffic-light LEDs. -/
structure Lights where
  red : Bool
  yellow : Bool
  green : Bool
deriving DecidableEq

/-- Observable machine state: the context struct plus the peripheral
outputs it drives and the error-level log (`ESP_LOGE` records the unknown
state value it reported). -/
structure TrafficSystem where
  ctx : TrafficLightContext
  lights : Lights
  buzzer_duty : Nat
  error_log : List Nat
deriving DecidableEq

/-- `turn_off_all_lights()`. -/
def turn_off_all_lights (s : TrafficSystem) : TrafficSystem :=
  { s with lights := { red := false, yellow := false, green := false } }

/-- `set_traffic_light(state)`: all lights off, then the one for `state`
on (no light for an unknown state, the `default` branch). -/
def set_traffic_light (state : Nat) (s : TrafficSystem) : TrafficSystem :=
  let s0 := turn_off_all_lights s
  if state = STATE_RED then
    { s0 with lights := { s0.lights with red := true } }
  else if state = STATE_RED_TO_YELLOW ∨ state = STATE_GREEN_TO_YELLOW then
    { s0 with lights := { s0.lights with yellow := true } }
  else if state = STATE_GREEN then
    { s0 with lights := { s0.lights with green := true } }
  else s0

/-- `beep_on()`: duty to `LEDC_DUTY`, `beep_active = true`. -/
def beep_on (s : TrafficSystem) : TrafficSystem :=
  { s with buzzer_duty := LEDC_DUTY, ctx := { s.ctx with beep_active := true } }

/-- `beep_off()`: duty to `0`, `beep_active = false`. -/
def beep_off (s : TrafficSystem) : TrafficSystem :=
  { s with buzzer_duty := 0, ctx := { s.ctx with beep_active := false } }

/-- `transition_to_state(new_state)`: updates `current_state`, stamps
`state_start_time = millis()`, clears `last_beep_time`, turns the buzzer
off, and sets the light for the new state. -/
def transition_to_state (new_state : Nat) (t_us : Nat) (s : TrafficSystem) : TrafficSystem :=
  let s1 := { s with ctx := { s.ctx with
      current_state := new_state,
      state_start_time := millis t_us,
      last_beep_time := 0 } }
  let s2 := beep_off s1
  set_traffic_light new_state s2

/-- `handle_state_red()`. -/
def handle_state_red (t_us : Nat) (s : TrafficSystem) : TrafficSystem :=
  if usub32 (millis t_us) s.ctx.state_start_time ≥ state_durations.getD STATE_RED 0 then
    transition_to_state STATE_RED_TO_YELLOW t_us s
  else s

/-- `handle_state_red_to_yellow()`. -/
def handle_state_red_to_yellow (t_us : Nat) (s : TrafficSystem) : TrafficSystem :=
  if usub32 (millis t_us) s.ctx.state_start_time ≥ state_durations.getD STATE_RED_TO_YELLOW 0 then
    transition_to_state STATE_GREEN t_us s
  else s

/-- First half of the beep logic in `handle_state_green()`: start a new
beep when `last_beep_time == 0` or a full `BEEP_INTERVAL` has passed. -/
def green_beep_start (current_time : Nat) (s : TrafficSystem) : TrafficSystem :=
  if s.ctx.last_beep_time = 0 ∨ usub32 current_time s.ctx.last_beep_time ≥ BEEP_INTERVAL then
    let s1 := beep_on s
    { s1 with ctx := { s1.ctx with last_beep_time := current_time } }
  else s

/-- Second half of the beep logic in `handle_state_green()`: stop the beep
once it has been on for `BEEP_DURATION`. -/
def green_beep_stop (current_time : Nat) (s : TrafficSystem) : TrafficSystem :=
  if s.ctx.beep_active ∧ usub32 current_time s.ctx.last_beep_time ≥ BEEP_DURATION then
    beep_off s
  else s

/-- `handle_state_green()`: run the beep logic, then check expiry (the
expiry comparison uses the `current_time` read at the top of the call);
on expiry `beep_off()` runs before `transition_to_state`. -/
def handle_state_green (t_us : Nat) (s : TrafficSystem) : TrafficSystem :=
  if usub32 (millis t_us) s.ctx.state_start_time ≥ state_durations.getD STATE_GREEN 0 then
    transition_to_state STATE_GREEN_TO_YELLOW t_us
      (beep_off (green_beep_stop (millis t_us) (green_beep_start (millis t_us) s)))
  else
    green_beep_stop (millis t_us) (green_beep_start (millis t_us) s)

/-- `handle_state_green_to_yellow()`. -/
def handle_state_green_to_yellow (t_us : Nat) (s : TrafficSystem) : TrafficSystem :=
  if usub32 (millis t_us) s.ctx.state_start_time ≥ state_durations.getD STATE_GREEN_TO_YELLOW 0 then
    transition_to_state STATE_RED t_us s
  else s

/-- `state_machine_run()`: the switch dispatcher.  The `default` branch
logs the unknown state at error level and falls back to `STATE_RED`. -/
def state_machine_run (t_us : Nat) (s : TrafficSystem) : TrafficSystem :=
  if s.ctx.current_state = STATE_RED then
    handle_state_red t_us s
  else if s.ctx.current_state = STATE_RED_TO_YELLOW then
    handle_state_red_to_yellow t_us s
  else if s.ctx.current_state = STATE_GREEN then
    handle_state_green t_us s
  else if s.ctx.current_state = STATE_GREEN_TO_YELLOW then
    handle_state_green_to_yellow t_us s
  else
    transition_to_state STATE_RED t_us
      { s with error_log := s.ctx.current_state :: s.error_log }

/-- The initialization performed by `app_main` before the polling loop:
the global `traffic_context` initializer, `init_traffic_leds()` (which
ends in `turn_off_all_lights()`), `init_buzzer()` (channel configured
with duty 0), then `current_state = STATE_RED` and
`state_start_time = millis()`.  No call to `set_traffic_light` occurs. -/
def app_main_init (t_us : Nat) : TrafficSystem :=
  let s : TrafficSystem :=
    { ctx := { current_state := STATE_RED, state_start_time := 0,
               last_beep_time := 0, beep_active := false },
      lights := { red := false, yellow := false, green := false },
      buzzer_duty := 0,
      error_log := [] }
  let s := turn_off_all_lights s
  { s with ctx := { s.ctx with
      current_state := STATE_RED,
      state_start_time := millis t_us } }

/-- The successor function the spec describes: `next(s) = (s+1) mod N`
over the enum order (spec wording, for comparison with the code). -/
def cycle_successor (st : Nat) : Nat := (st + 1) % STATE_MAX

/-- A sample machine sitting in `STATE_RED` since time 0. -/
def sampleRed : TrafficSystem :=
  { ctx := { current_state := STATE_RED, state_start_time := 0,
             last_beep_time := 0, beep_active := false },
    lights := { red := true, yellow := false, green := false },
    buzzer_duty := 0,
    error_log := [] }

/-- A sample machine freshly transitioned into `STATE_GREEN` at time 0. -/
def sampleGreen : TrafficSystem :=
  { ctx := { current_state := STATE_GREEN, state_start_time := 0,
             last_beep_time := 0, beep_active := false },
    lights := { red := false, yellow := false, green := true },
    buzzer_duty := 0,
    error_log := [] }

/-- A sample machine whose `current_state` holds the undefined value 7. -/
def sampleUnknown : TrafficSystem :=
  { ctx := { current_state := 7, state_start_time := 0,
             last_beep_time := 0, beep_active := false },
    lights := { red := false, yellow := false, green := false },
    buzzer_duty := 0,
    error_log := [] }

end Traffic

namespace Siren

-- Buzzer frequency macros of `src/Project_2/main/main.c`.
def FREQ_MIN : Int := 600
def FREQ_MAX : Int := 1200
def FREQ_STEP : Int := 5

/-- The two globals the siren loop updates: `int buzzer_freq` and
`bool freq_up`. -/
structure SirenState where
  buzzer_freq : Int
  freq_up : Bool
deriving DecidableEq

/-- Initial values of the globals: `buzzer_freq = FREQ_MIN`,
`freq_up = true`. -/
def siren_init : SirenState := { buzzer_freq := FREQ_MIN, freq_up := true }

/-- One execution of the buzzer-update branch of the `while` loop in
`app_main`: step the frequency by `FREQ_STEP` in the current direction
and flip the direction at the bounds. -/
def siren_update (s : SirenState) : SirenState :=
  if s.freq_up then
    let f := s.buzzer_freq + FREQ_STEP
    if f ≥ FREQ_MAX then { buzzer_freq := f, freq_up := false }
    else { buzzer_freq := f, freq_up := true }
  else
    let f := s.buzzer_freq - FREQ_STEP
    if f ≤ FREQ_MIN then { buzzer_freq := f, freq_up := true }
    else { buzzer_freq := f, freq_up := false }

/-- Inductive invariant of the siren loop: the frequency is a multiple of
`FREQ_STEP`, and its range depends on the direction (after flipping at
`FREQ_MAX` the frequency is exactly `FREQ_MAX` and the next steps go
down, symmetrically at `FREQ_MIN`). -/
def SirenInv (s : SirenState) : Prop :=
  s.buzzer_freq % 5 = 0 ∧
  (if s.freq_up then 600 ≤ s.buzzer_freq ∧ s.buzzer_freq ≤ 1195
   else 605 ≤ s.buzzer_freq ∧ s.buzzer_freq ≤ 1200)

end Siren

namespace Melody

-- `src/Project_3/main/main.c` note frequency macros (Hz).
def NOTE_B3 : Int := 247
def NOTE_C4 : Int := 262
def NOTE_CS4 : Int := 277
def NOTE_D4 : Int := 294
def NOTE_DS4 : Int := 311
def NOTE_E4 : Int := 330
def NOTE_F4 : Int := 349
def NOTE_FS4 : Int := 370
def NOTE_G4 : Int := 392
def NOTE_GS4 : Int := 415
def NOTE_A4 : Int := 440
def NOTE_AS4 : Int := 466
def NOTE_B4 : Int := 494
def NOTE_C5 : Int := 523
def NOTE_CS5 : Int := 554
def NOTE_D5 : Int := 587
def NOTE_DS5 : Int := 622
def NOTE_E5 : Int := 659
def NOTE_F5 : Int := 698
def NOTE_FS5 : Int := 740
def NOTE_G5 : Int := 784
def NOTE_GS5 : Int := 831
def NOTE_A5 : Int := 880
def REST : Int := 0

def TEMPO : Int := 120

/-- `WHOLE_NOTE = (60000 * 4) / TEMPO` (= 2000 ms). -/
def WHOLE_NOTE : Int := (60000 * 4) / TEMPO

/-- `calc_duration(divider)`.  `divider > 0` divides `WHOLE_NOTE`
directly; a negative divider is a dotted note, `(WHOLE_NOTE /
abs(divider)) * 1.5` (the `double` product truncated back to `int`,
which for the nonnegative integer operand `WHOLE_NOTE / abs(divider)`
equals multiplying by 3 and dividing by 2 in integers).  `divider = 0`
falls into the dotted branch and divides by `abs(0) = 0`: undefined
behaviour in C, modelled as `none`. -/
def calc_duration (divider : Int) : Option Int :=
  if divider > 0 then some (WHOLE_NOTE / divider)
  else if divider = 0 then none
  else some (WHOLE_NOTE / |divider| * 3 / 2)

/-- `int imperial_march_raw[][2]`: `(frequency, duration_divider)`. -/
def imperial_march_raw : List (Int × Int) :=
  [ -- Main theme
    (NOTE_A4, -4), (NOTE_A4, -4), (NOTE_A4, 16), (NOTE_A4, 16),
    (NOTE_A4, 16), (NOTE_A4, 16), (NOTE_F4, 8), (REST, 8),
    (NOTE_A4, -4), (NOTE_A4, -4), (NOTE_A4, 16), (NOTE_A4, 16),
    (NOTE_A4, 16), (NOTE_A4, 16), (NOTE_F4, 8), (REST, 8),
    (NOTE_A4, 4), (NOTE_A4, 4), (NOTE_A4, 4), (NOTE_F4, -8), (NOTE_C5, 16),
    -- Section 1
    (NOTE_A4, 4), (NOTE_F4, -8), (NOTE_C5, 16), (NOTE_A4, 2),
    (NOTE_E5, 4), (NOTE_E5, 4), (NOTE_E5, 4), (NOTE_F5, -8), (NOTE_C5, 16),
    (NOTE_A4, 4), (NOTE_F4, -8), (NOTE_C5, 16), (NOTE_A4, 2),
    -- Section 2
    (NOTE_A5, 4), (NOTE_A4, -8), (NOTE_A4, 16), (NOTE_A5, 4),
    (NOTE_GS5, -8), (NOTE_G5, 16),
    (NOTE_DS5, 16), (NOTE_D5, 16), (NOTE_DS5, 8), (REST, 8),
    (NOTE_A4, 8), (NOTE_DS5, 4), (NOTE_D5, -8), (NOTE_CS5, 16),
    (NOTE_C5, 16), (NOTE_B4, 16), (NOTE_C5, 16), (REST, 8),
    (NOTE_F4, 8), (NOTE_GS4, 4), (NOTE_F4, -8), (NOTE_A4, -16),
    (NOTE_C5, 4), (NOTE_A4, -8), (NOTE_C5, 16), (NOTE_E5, 2),
    -- Section 3 (repeat of section 2)
    (NOTE_A5, 4), (NOTE_A4, -8), (NOTE_A4, 16), (NOTE_A5, 4),
    (NOTE_GS5, -8), (NOTE_G5, 16),
    (NOTE_DS5, 16), (NOTE_D5, 16), (NOTE_DS5, 8), (REST, 8),
    (NOTE_A4, 8), (NOTE_DS5, 4), (NOTE_D5, -8), (NOTE_CS5, 16),
    (NOTE_C5, 16), (NOTE_B4, 16), (NOTE_C5, 16), (REST, 8),
    (NOTE_F4, 8), (NOTE_GS4, 4), (NOTE_F4, -8), (NOTE_A4, -16),
    (NOTE_A4, 4), (NOTE_F4, -8), (NOTE_C5, 16), (NOTE_A4, 2) ]

/-- `MELODY_LENGTH`. -/
def MELODY_LENGTH : Nat := imperial_march_raw.length

/-- The durations `play_melody` computes, one per note of the table
(`duration = calc_duration(divider)` in its loop body). -/
def play_melody_durations : List (Option Int) :=
  imperial_march_raw.map (fun note => calc_duration note.2)

end Melody

namespace Morse

/-- `TIME_UNIT`: base Morse time unit in milliseconds. -/
def TIME_UNIT : Nat := 200

def DOT_DURATION : Nat := TIME_UNIT * 1
def DASH_DURATION : Nat := TIME_UNIT * 3
/-- `SYMBOL_SPACE`: the millisecond macro, `TIME_UNIT * 1 = 200`. -/
def SYMBOL_SPACE : Nat := TIME_UNIT * 1
def LETTER_SPACE : Nat := TIME_UNIT * 3
def WORD_SPACE : Nat := TIME_UNIT * 7

-- Enum `MorseSymbol` (C enum values).
def DOT : Nat := 0
def DASH : Nat := 1
/-- `SPACE_SYMBOL`: the enum constant, value 2. -/
def SPACE_SYMBOL : Nat := 2
def SPACE_LETTER : Nat := 3
def SPACE_WORD : Nat := 4

/-- `MorseSymbol sos_pattern[]`, exactly as written in the source: the
gap entries use the macro `SYMBOL_SPACE` (200), not the enum constant
`SPACE_SYMBOL` (2). -/
def sos_pattern : List Nat :=
  [ -- Letter S: ...
    DOT, SYMBOL_SPACE, DOT, SYMBOL_SPACE, DOT,
    SPACE_LETTER,
    -- Letter O: ---
    DASH, SYMBOL_SPACE, DASH, SYMBOL_SPACE, DASH,
    SPACE_LETTER,
    -- Letter S: ...
    DOT, SYMBOL_SPACE, DOT, SYMBOL_SPACE, DOT,
    SPACE_WORD ]

/-- A signal change performed by `signal_on(d)` / `signal_off(d)`:
LED+buzzer on (or off) followed by a blocking delay of `d` ms. -/
inductive SigEvent where
  | signalOn (duration_ms : Nat)
  | signalOff (duration_ms : Nat)
deriving DecidableEq

/-- `transmit_symbol(symbol)`, by its observable effect: the string
appended to `morse_buffer` and the signal changes performed.  A value
matching no `case` of the switch (such as 200) does nothing.  Note the
`SPACE_SYMBOL` case calls `signal_off(SPACE_SYMBOL)` with the macro
value 200. -/
def transmit_symbol (symbol : Nat) : String × List SigEvent :=
  if symbol = DOT then (".", [SigEvent.signalOn DOT_DURATION])
  else if symbol = DASH then ("-", [SigEvent.signalOn DASH_DURATION])
  else if symbol = SPACE_SYMBOL then ("", [SigEvent.signalOff SYMBOL_SPACE])
  else if symbol = SPACE_LETTER then (" ", [SigEvent.signalOff LETTER_SPACE])
  else if symbol = SPACE_WORD then ("", [SigEvent.signalOff WORD_SPACE])
  else ("", [])

/-- The `morse_buffer` contents logged after one `transmit_sos()` cycle
(the buffer is cleared at the start of the cycle and each symbol appends
its fragment). -/
def transmit_sos_buffer : String :=
  String.join (sos_pattern.map (fun sym => (transmit_symbol sym).1))

/-- The sequence of signal changes performed by one `transmit_sos()`
cycle. -/
def transmit_sos_events : List SigEvent :=
  (sos_pattern.map (fun sym => (transmit_symbol sym).2)).flatten

end Morse

/-! ## Helper lemmas -/

namespace Traffic

theorem set_traffic_light_ctx (st : Nat) (s : TrafficSystem) :
    (set_traffic_light st s).ctx = s.ctx := by
  unfold set_traffic_light turn_off_all_lights
  split
  · rfl
  · split
    · rfl
    · split <;> rfl

theorem set_traffic_light_error_log (st : Nat) (s : TrafficSystem) :
    (set_traffic_light st s).error_log = s.error_log := by
  unfold set_traffic_light turn_off_all_lights
  split
  · rfl
  · split
    · rfl
    · split <;> rfl

theorem transition_ctx (n t_us : Nat) (s : TrafficSystem) :
    (transition_to_state n t_us s).ctx =
      { current_state := n, state_start_time := millis t_us,
        last_beep_time := 0, beep_active := false } := by
  unfold transition_to_state beep_off
  rw [set_traffic_light_ctx]

theorem transition_error_log (n t_us : Nat) (s : TrafficSystem) :
    (transition_to_state n t_us s).error_log = s.error_log := by
  unfold transition_to_state beep_off
  rw [set_traffic_light_error_log]

theorem green_beep_start_state (ct : Nat) (s : TrafficSystem) :
    (green_beep_start ct s).ctx.current_state = s.ctx.current_state := by
  unfold green_beep_start beep_on
  split <;> rfl

theorem green_beep_stop_state (ct : Nat) (s : TrafficSystem) :
    (green_beep_stop ct s).ctx.current_state = s.ctx.current_state := by
  unfold green_beep_stop beep_off
  split <;> rfl

/-- On a poll where the elapsed time has reached the current (valid)
state's duration, the dispatcher moves to the next state and stamps the
new entry; the context after the call is fully determined. -/
theorem run_expired (st : Nat) (hst : st < STATE_MAX) (t_us : Nat) (s : TrafficSystem)
    (hcs : s.ctx.current_state = st)
    (hel : usub32 (millis t_us) s.ctx.state_start_time ≥ state_durations.getD st 0) :
    (state_machine_run t_us s).ctx =
      { current_state := (st + 1) % STATE_MAX, state_start_time := millis t_us,
        last_beep_time := 0, beep_active := false } := by
  unfold STATE_MAX at hst
  interval_cases st <;>
    simp only [state_machine_run, hcs, STATE_RED, STATE_RED_TO_YELLOW, STATE_GREEN,
      STATE_GREEN_TO_YELLOW, STATE_MAX, handle_state_red, handle_state_red_to_yellow,
      handle_state_green, handle_state_green_to_yellow] <;>
    norm_num <;>
    rw [if_pos (by simpa [STATE_RED, STATE_RED_TO_YELLOW, STATE_GREEN,
      STATE_GREEN_TO_YELLOW] using hel)] <;>
    rw [transition_ctx]

/-- On a poll where the elapsed time is still below the current (valid)
state's duration, the dispatcher leaves the current state unchanged. -/
theorem run_not_expired (st : Nat) (hst : st < STATE_MAX) (t_us : Nat) (s : TrafficSystem)
    (hcs : s.ctx.current_state = st)
    (hel : usub32 (millis t_us) s.ctx.state_start_time < state_durations.getD st 0) :
    (state_machine_run t_us s).ctx.current_state = st := by
  unfold STATE_MAX at hst
  interval_cases st <;>
    simp only [state_machine_run, hcs, STATE_RED, STATE_RED_TO_YELLOW, STATE_GREEN,
      STATE_GREEN_TO_YELLOW, handle_state_red, handle_state_red_to_yellow,
      handle_state_green, handle_state_green_to_yellow] <;>
    norm_num <;>
    rw [if_neg (by simpa [STATE_RED, STATE_RED_TO_YELLOW, STATE_GREEN,
      STATE_GREEN_TO_YELLOW, Nat.not_le] using hel)]
  · exact hcs
  · exact hcs
  · rw [green_beep_stop_state, green_beep_start_state, hcs]
  · exact hcs

/-- Unsigned 32-bit elapsed-time computation recovers the true elapsed
time `e` whenever `e` is below `2^32`, for any entry timestamp. -/
theorem usub32_elapsed (t0 e : Nat) (he : e < U32) :
    usub32 ((t0 + e) % U32) (t0 % U32) = e := by
  unfold usub32 U32 at *
  omega

/-- `millis` of a microsecond reading taken `m` milliseconds into the
run. -/
theorem millis_poll (m : Nat) : millis (m * 1000) = m % U32 := by
  unfold millis
  rw [Nat.mul_div_cancel _ (by norm_num : 0 < 1000)]

/-- Bounds for the first multiple of `p` that reaches `d`:
`⌈d/p⌉ * p ∈ [d, d + p)`. -/
theorem ceil_mul_bounds (d p : Nat) (hp : 0 < p) :
    d ≤ (d + p - 1) / p * p ∧ (d + p - 1) / p * p < d + p := by
  have h1 : d + p - 1 < ((d + p - 1) / p + 1) * p :=
    (Nat.div_lt_iff_lt_mul hp).1 (Nat.lt_succ_self _)
  have h2 : (d + p - 1) / p * p ≤ d + p - 1 := Nat.div_mul_le_self _ _
  rw [Nat.succ_mul] at h1
  have h3 : ∀ m : Nat, d + p - 1 < m + p → m ≤ d + p - 1 → d ≤ m ∧ m < d + p := by
    intro m hm1 hm2
    omega
  exact h3 _ h1 h2

theorem usub32_self (a : Nat) : usub32 a a = 0 := by
  unfold usub32 U32
  omega

/-- A poll in `STATE_GREEN` that does not hit expiry runs exactly the
beep logic. -/
theorem run_green_tick (t_us : Nat) (s : TrafficSystem)
    (hcs : s.ctx.current_state = STATE_GREEN)
    (hel : usub32 (millis t_us) s.ctx.state_start_time <
      state_durations.getD STATE_GREEN 0) :
    state_machine_run t_us s =
      green_beep_stop (millis t_us) (green_beep_start (millis t_us) s) := by
  unfold state_machine_run
  rw [hcs]
  norm_num [STATE_RED, STATE_RED_TO_YELLOW, STATE_GREEN, STATE_GREEN_TO_YELLOW]
  unfold handle_state_green
  rw [if_neg (by simpa [Nat.not_le] using hel)]


/-- A green-state tick on which the beep-start condition holds: the beep
turns on and is stamped with the current time (and the immediately
following stop check sees zero elapsed beep time, so the beep stays on). -/
theorem green_tick_start_beep (ct : Nat) (s : TrafficSystem)
    (hstart : s.ctx.last_beep_time = 0 ∨ usub32 ct s.ctx.last_beep_time ≥ BEEP_INTERVAL) :
    green_beep_stop ct (green_beep_start ct s) =
      { s with
        buzzer_duty := LEDC_DUTY,
        ctx := { s.ctx with beep_active := true, last_beep_time := ct } } := by
  unfold green_beep_start
  rw [if_pos hstart]
  unfold green_beep_stop beep_on
  rw [if_neg (by
    intro hand
    have h2 := hand.2
    simp only [usub32_self] at h2
    exact absurd h2 (by decide))]

/-- A green-state tick on which the beep-start condition fails and the
stop condition holds: the beep is switched off. -/
theorem green_tick_stop_beep (ct : Nat) (s : TrafficSystem)
    (hne : ¬(s.ctx.last_beep_time = 0 ∨ usub32 ct s.ctx.last_beep_time ≥ BEEP_INTERVAL))
    (hstop : s.ctx.beep_active = true ∧ usub32 ct s.ctx.last_beep_time ≥ BEEP_DURATION) :
    green_beep_stop ct (green_beep_start ct s) = beep_off s := by
  unfold green_beep_start
  rw [if_neg hne]
  unfold green_beep_stop
  rw [if_pos hstop]

end Traffic

/-! ## Claim theorems -/

/-- C1: the traffic-light state machine advances through the fixed
directed cycle RED → RED_TO_YELLOW → GREEN → GREEN_TO_YELLOW → RED
(`next(s) = (s+1) mod 4` over the enum order), and the duration table
assigns RED=5000 ms, RED_TO_YELLOW=2000 ms, GREEN=5000 ms,
GREEN_TO_YELLOW=2000 ms; for every reachable state, the successor taken
at expiry is exactly the cycle successor. -/
theorem c1_fixed_cycle_and_durations (st : Nat) (hst : st < Traffic.STATE_MAX)
    (t_us : Nat) (s : Traffic.TrafficSystem)
    (hcs : s.ctx.current_state = st)
    (hel : Traffic.usub32 (Traffic.millis t_us) s.ctx.state_start_time ≥
      Traffic.state_durations.getD st 0) :
    Traffic.state_durations = [5000, 2000, 5000, 2000] ∧
    (Traffic.state_machine_run t_us s).ctx.current_state = Traffic.cycle_successor st := by
  refine ⟨by decide, ?_⟩
  rw [Traffic.run_expired st hst t_us s hcs hel]
  rfl

/-- Witness for C1: a machine in RED since time 0, polled at 6000 ms,
moves to the cycle successor of RED. -/
theorem c1_witness :
    Traffic.state_durations = [5000, 2000, 5000, 2000] ∧
    (Traffic.state_machine_run 6000000 Traffic.sampleRed).ctx.current_state =
      Traffic.cycle_successor Traffic.STATE_RED :=
  c1_fixed_cycle_and_durations Traffic.STATE_RED (by decide) 6000000 Traffic.sampleRed
    rfl (by decide)

/-- C2: a state with duration `d` entered at time `t0` is never left on
a poll with elapsed time below `d`, is left on any poll with elapsed
time at least `d`, and the first multiple of the polling interval `p`
reaching `d` lies in the window `[d, d + p)` — so with polls every `p`
ms the transition happens at elapsed time within `[d, d + p)`. -/
theorem c2_transition_window (st : Nat) (hst : st < Traffic.STATE_MAX)
    (s : Traffic.TrafficSystem) (t0 p : Nat)
    (hcs : s.ctx.current_state = st)
    (hstart : s.ctx.state_start_time = t0 % Traffic.U32)
    (hp : 0 < p)
    (hbound : Traffic.state_durations.getD st 0 + p < Traffic.U32) :
    (∀ e : Nat, e < Traffic.state_durations.getD st 0 →
      (Traffic.state_machine_run ((t0 + e) * 1000) s).ctx.current_state = st) ∧
    (∀ e : Nat, Traffic.state_durations.getD st 0 ≤ e → e < Traffic.U32 →
      (Traffic.state_machine_run ((t0 + e) * 1000) s).ctx.current_state =
        Traffic.cycle_successor st) ∧
    (Traffic.state_durations.getD st 0 ≤
        (Traffic.state_durations.getD st 0 + p - 1) / p * p ∧
      (Traffic.state_durations.getD st 0 + p - 1) / p * p <
        Traffic.state_durations.getD st 0 + p) := by
  have helapsed : ∀ e : Nat, e < Traffic.U32 →
      Traffic.usub32 (Traffic.millis ((t0 + e) * 1000)) s.ctx.state_start_time = e := by
    intro e he
    rw [Traffic.millis_poll, hstart, Traffic.usub32_elapsed t0 e he]
  refine ⟨?_, ?_, Traffic.ceil_mul_bounds _ p hp⟩
  · intro e he
    refine Traffic.run_not_expired st hst _ s hcs ?_
    rw [helapsed e (by omega)]
    exact he
  · intro e hde heU
    rw [Traffic.run_expired st hst ((t0 + e) * 1000) s hcs (by rw [helapsed e heU]; exact hde)]
    rfl

/-- Witness for C2: the machine in RED entered at 0, polling interval
10 ms; the poll at elapsed 5000 ms leaves RED for its successor. -/
theorem c2_witness :
    (Traffic.state_machine_run ((0 + 5000) * 1000) Traffic.sampleRed).ctx.current_state =
      Traffic.cycle_successor Traffic.STATE_RED :=
  (c2_transition_window Traffic.STATE_RED (by decide) Traffic.sampleRed 0 10 rfl (by decide)
    (by decide) (by decide)).2.1 5000 (by decide) (by decide)

/-- C3: within GREEN, a fresh visit (`last_beep_time = 0`) starts a beep
on the very first poll; a new beep starts once `BEEP_INTERVAL` (1000 ms)
has passed since the last one; an active beep is switched off once
`BEEP_DURATION` (200 ms) has passed; and the transition out of GREEN
leaves `beep_active = false` with `last_beep_time` reset to 0, so no
pulse carries into the next visit. -/
theorem c3_green_beep (s : Traffic.TrafficSystem) (t_us : Nat)
    (hcs : s.ctx.current_state = Traffic.STATE_GREEN) :
    (s.ctx.last_beep_time = 0 →
      Traffic.usub32 (Traffic.millis t_us) s.ctx.state_start_time <
        Traffic.state_durations.getD Traffic.STATE_GREEN 0 →
      (Traffic.state_machine_run t_us s).ctx.beep_active = true ∧
      (Traffic.state_machine_run t_us s).ctx.last_beep_time = Traffic.millis t_us) ∧
    (Traffic.usub32 (Traffic.millis t_us) s.ctx.last_beep_time ≥ Traffic.BEEP_INTERVAL →
      Traffic.usub32 (Traffic.millis t_us) s.ctx.state_start_time <
        Traffic.state_durations.getD Traffic.STATE_GREEN 0 →
      (Traffic.state_machine_run t_us s).ctx.beep_active = true ∧
      (Traffic.state_machine_run t_us s).ctx.last_beep_time = Traffic.millis t_us) ∧
    (s.ctx.beep_active = true → s.ctx.last_beep_time ≠ 0 →
      Traffic.usub32 (Traffic.millis t_us) s.ctx.last_beep_time ≥ Traffic.BEEP_DURATION →
      Traffic.usub32 (Traffic.millis t_us) s.ctx.last_beep_time < Traffic.BEEP_INTERVAL →
      Traffic.usub32 (Traffic.millis t_us) s.ctx.state_start_time <
        Traffic.state_durations.getD Traffic.STATE_GREEN 0 →
      (Traffic.state_machine_run t_us s).ctx.beep_active = false ∧
      (Traffic.state_machine_run t_us s).buzzer_duty = 0 ∧
      (Traffic.state_machine_run t_us s).ctx.last_beep_time = s.ctx.last_beep_time) ∧
    (Traffic.usub32 (Traffic.millis t_us) s.ctx.state_start_time ≥
        Traffic.state_durations.getD Traffic.STATE_GREEN 0 →
      (Traffic.state_machine_run t_us s).ctx =
        { current_state := Traffic.STATE_GREEN_TO_YELLOW,
          state_start_time := Traffic.millis t_us,
          last_beep_time := 0, beep_active := false }) := by
  refine ⟨?_, ?_, ?_, ?_⟩
  · intro hlast hnot
    rw [Traffic.run_green_tick t_us s hcs hnot,
      Traffic.green_tick_start_beep (Traffic.millis t_us) s (Or.inl hlast)]
    exact ⟨rfl, rfl⟩
  · intro hcad hnot
    rw [Traffic.run_green_tick t_us s hcs hnot,
      Traffic.green_tick_start_beep (Traffic.millis t_us) s (Or.inr hcad)]
    exact ⟨rfl, rfl⟩
  · intro hact hne h200 h1000 hnot
    rw [Traffic.run_green_tick t_us s hcs hnot,
      Traffic.green_tick_stop_beep (Traffic.millis t_us) s
        (by
          rintro (h0 | hge)
          · exact hne h0
          · exact absurd hge (by omega))
        ⟨hact, h200⟩]
    exact ⟨rfl, rfl, rfl⟩
  · intro hexp
    rw [Traffic.run_expired Traffic.STATE_GREEN (by decide) t_us s hcs hexp]
    rfl

/-- Witness for C3: a machine freshly in GREEN (entry at 0,
`last_beep_time = 0`) polled at time 0 has an active beep stamped at
`millis 0`. -/
theorem c3_witness :
    (Traffic.state_machine_run 0 Traffic.sampleGreen).ctx.beep_active = true ∧
    (Traffic.state_machine_run 0 Traffic.sampleGreen).ctx.last_beep_time = Traffic.millis 0 :=
  (c3_green_beep Traffic.sampleGreen 0 rfl).1 rfl (by decide)

/-- C4 counterexample: after `app_main`'s initialization (clock reading
0) the red LED is off — no on-entry action ran, contradicting the claim
that the red LED is turned on via `set_traffic_light` before the first
poll.  (`init_traffic_leds` has turned all lights off and `app_main`
only assigns `current_state` and `state_start_time`.) -/
theorem c4_counterexample :
    ¬ ((Traffic.app_main_init 0).lights.red = true) := by decide

/-- C4 as amended: initialization sets the current state to RED and
records the entry timestamp as the current clock reading, but invokes no
on-entry action: all LEDs stay off (from `init_traffic_leds`) and the
buzzer duty stays 0 until the first state transition. -/
theorem c4_init_no_entry_action (t_us : Nat) :
    (Traffic.app_main_init t_us).ctx.current_state = Traffic.STATE_RED ∧
    (Traffic.app_main_init t_us).ctx.state_start_time = Traffic.millis t_us ∧
    (Traffic.app_main_init t_us).lights =
      { red := false, yellow := false, green := false } ∧
    (Traffic.app_main_init t_us).buzzer_duty = 0 :=
  ⟨rfl, rfl, rfl, rfl⟩

/-- C5: dispatching with a `current_state` outside the defined set does
not silently continue: the unknown value is logged at error level and
the machine is reset to the initial state RED with a fresh entry
timestamp. -/
theorem c5_unknown_state_reset (s : Traffic.TrafficSystem) (t_us : Nat)
    (h : Traffic.STATE_MAX ≤ s.ctx.current_state) :
    (Traffic.state_machine_run t_us s).ctx.current_state = Traffic.STATE_RED ∧
    (Traffic.state_machine_run t_us s).ctx.state_start_time = Traffic.millis t_us ∧
    (Traffic.state_machine_run t_us s).error_log =
      s.ctx.current_state :: s.error_log := by
  have h0 : ¬ (s.ctx.current_state = Traffic.STATE_RED) := by
    unfold Traffic.STATE_RED
    unfold Traffic.STATE_MAX at h
    omega
  have h1 : ¬ (s.ctx.current_state = Traffic.STATE_RED_TO_YELLOW) := by
    unfold Traffic.STATE_RED_TO_YELLOW
    unfold Traffic.STATE_MAX at h
    omega
  have h2 : ¬ (s.ctx.current_state = Traffic.STATE_GREEN) := by
    unfold Traffic.STATE_GREEN
    unfold Traffic.STATE_MAX at h
    omega
  have h3 : ¬ (s.ctx.current_state = Traffic.STATE_GREEN_TO_YELLOW) := by
    unfold Traffic.STATE_GREEN_TO_YELLOW
    unfold Traffic.STATE_MAX at h
    omega
  unfold Traffic.state_machine_run
  rw [if_neg h0, if_neg h1, if_neg h2, if_neg h3]
  refine ⟨?_, ?_, ?_⟩
  · rw [Traffic.transition_ctx]
  · rw [Traffic.transition_ctx]
  · rw [Traffic.transition_error_log]

/-- Witness for C5: a machine whose state field holds 7 is reset to RED,
restamped, and the error log records the unknown value 7. -/
theorem c5_witness :
    (Traffic.state_machine_run 5000 Traffic.sampleUnknown).ctx.current_state =
      Traffic.STATE_RED ∧
    (Traffic.state_machine_run 5000 Traffic.sampleUnknown).ctx.state_start_time =
      Traffic.millis 5000 ∧
    (Traffic.state_machine_run 5000 Traffic.sampleUnknown).error_log =
      Traffic.sampleUnknown.ctx.current_state :: Traffic.sampleUnknown.error_log :=
  c5_unknown_state_reset Traffic.sampleUnknown 5000 (by decide)

/-- C6: one `state_machine_run` call performs at most one transition:
for any machine in a defined state, the state after the call is either
unchanged or the single cycle successor — never further along the cycle,
regardless of how much time has elapsed. -/
theorem c6_at_most_one_step (s : Traffic.TrafficSystem) (t_us : Nat)
    (h : s.ctx.current_state < Traffic.STATE_MAX) :
    (Traffic.state_machine_run t_us s).ctx.current_state = s.ctx.current_state ∨
    (Traffic.state_machine_run t_us s).ctx.current_state =
      Traffic.cycle_successor s.ctx.current_state := by
  by_cases hel : Traffic.usub32 (Traffic.millis t_us) s.ctx.state_start_time ≥
      Traffic.state_durations.getD s.ctx.current_state 0
  · right
    rw [Traffic.run_expired s.ctx.current_state h t_us s rfl hel]
    rfl
  · left
    exact Traffic.run_not_expired s.ctx.current_state h t_us s rfl (by omega)

/-- Witness for C6: the machine in RED polled at an elapsed time of
20000 ms (beyond the sum of all four durations) has moved at most one
step. -/
theorem c6_witness :
    (Traffic.state_machine_run 20000000 Traffic.sampleRed).ctx.current_state =
      Traffic.sampleRed.ctx.current_state ∨
    (Traffic.state_machine_run 20000000 Traffic.sampleRed).ctx.current_state =
      Traffic.cycle_successor Traffic.sampleRed.ctx.current_state :=
  c6_at_most_one_step Traffic.sampleRed 20000000 (by decide)

/-- C7: elapsed-time computation is wraparound-safe: for any 32-bit
entry timestamp `start` and true elapsed time `e` below `2^32`, the
unsigned subtraction of `start` from the (possibly wrapped) clock value
`(start + e) mod 2^32` yields exactly `e`, so the comparison
`now - start >= duration` decides transition eligibility correctly
across wraparound. -/
theorem c7_wraparound_safe (start e : Nat) (hs : start < Traffic.U32)
    (he : e < Traffic.U32) :
    Traffic.usub32 ((start + e) % Traffic.U32) start = e ∧
    (∀ d : Nat, Traffic.usub32 ((start + e) % Traffic.U32) start ≥ d ↔ e ≥ d) := by
  have h : Traffic.usub32 ((start + e) % Traffic.U32) start = e := by
    have h2 := Traffic.usub32_elapsed start e he
    rwa [Nat.mod_eq_of_lt hs] at h2
  exact ⟨h, fun d => by rw [h]⟩

/-- Witness for C7: a clock entering a state 1000 ms before wrapping and
read 5000 ms later (the counter having wrapped) still reports an elapsed
time of 5000 ms. -/
theorem c7_witness :
    Traffic.usub32 ((4294966296 + 5000) % Traffic.U32) 4294966296 = 5000 :=
  (c7_wraparound_safe 4294966296 5000 (by decide) (by decide)).1

/-- The siren invariant holds of the initial globals. -/
theorem siren_inv_init : Siren.SirenInv Siren.siren_init := by
  unfold Siren.SirenInv Siren.siren_init Siren.FREQ_MIN
  refine ⟨by decide, ?_⟩
  rw [if_pos rfl]
  exact ⟨by decide, by decide⟩

/-- One pass of the buzzer-update branch preserves the siren
invariant. -/
theorem siren_inv_step (s : Siren.SirenState) (h : Siren.SirenInv s) :
    Siren.SirenInv (Siren.siren_update s) := by
  obtain ⟨f, up⟩ := s
  obtain ⟨h5, hrange⟩ := h
  unfold Siren.SirenInv Siren.siren_update Siren.FREQ_STEP Siren.FREQ_MAX Siren.FREQ_MIN at *
  cases up <;> simp only [Bool.false_eq_true, if_true, if_false] at hrange ⊢ <;>
    split_ifs with h1 <;> simp_all <;> omega

/-- The siren invariant holds after any number of update steps from the
initial globals. -/
theorem siren_inv_iter (n : Nat) :
    Siren.SirenInv (Siren.siren_update^[n] Siren.siren_init) := by
  induction n with
  | zero => exact siren_inv_init
  | succ n ih =>
    rw [Function.iterate_succ_apply']
    exact siren_inv_step _ ih

/-- The frequency moves by exactly `FREQ_STEP` in the current
direction on every update. -/
theorem siren_update_freq (s : Siren.SirenState) :
    (Siren.siren_update s).buzzer_freq =
      if s.freq_up then s.buzzer_freq + Siren.FREQ_STEP
      else s.buzzer_freq - Siren.FREQ_STEP := by
  obtain ⟨f, up⟩ := s
  unfold Siren.siren_update
  cases up <;> simp only [Bool.false_eq_true, if_true, if_false] <;> split_ifs <;> rfl

/-- C8: starting from `buzzer_freq = FREQ_MIN = 600` with
`freq_up = true`, after any number of siren update steps the frequency
satisfies `FREQ_MIN ≤ buzzer_freq ≤ FREQ_MAX` and is a multiple of
`FREQ_STEP = 5`; each step moves the frequency by exactly `FREQ_STEP`
upward while `freq_up` holds and downward otherwise, so it ramps up to
1200 and back down to 600 without ever leaving the range. -/
theorem c8_siren_frequency_invariant (n : Nat) :
    Siren.FREQ_MIN ≤ (Siren.siren_update^[n] Siren.siren_init).buzzer_freq ∧
    (Siren.siren_update^[n] Siren.siren_init).buzzer_freq ≤ Siren.FREQ_MAX ∧
    (Siren.siren_update^[n] Siren.siren_init).buzzer_freq % Siren.FREQ_STEP = 0 ∧
    (Siren.siren_update (Siren.siren_update^[n] Siren.siren_init)).buzzer_freq =
      (if (Siren.siren_update^[n] Siren.siren_init).freq_up then
        (Siren.siren_update^[n] Siren.siren_init).buzzer_freq + Siren.FREQ_STEP
       else
        (Siren.siren_update^[n] Siren.siren_init).buzzer_freq - Siren.FREQ_STEP) := by
  have h := siren_inv_iter n
  obtain ⟨h5, hrange⟩ := h
  unfold Siren.FREQ_MIN Siren.FREQ_MAX Siren.FREQ_STEP
  refine ⟨?_, ?_, ?_, siren_update_freq _⟩ <;> split_ifs at hrange <;> omega

/-- C9: `calc_duration` is undefined exactly at divider 0 (the dotted
branch divides by `abs(0)`); every duration divider in
`imperial_march_raw` is nonzero, so every duration `play_melody`
computes is well-defined — no division by zero is reachable. -/
theorem c9_no_division_by_zero :
    Melody.calc_duration 0 = none ∧
    Melody.imperial_march_raw.all (fun note => note.2 != 0) = true ∧
    Melody.play_melody_durations.all (fun d => d.isSome) = true := by
  refine ⟨by decide, by decide, by decide⟩

/-- C10: the gap entries of `sos_pattern` are the macro value
`SYMBOL_SPACE = 200`, not the enum constant `SPACE_SYMBOL = 2`; the six
such entries match no case of `transmit_symbol`'s switch, producing no
buffer output, no signal change and no delay, so the dots (and dashes)
of each letter are emitted back-to-back with zero off-time — while the
logged buffer for one cycle is still `"... --- ..."`. -/
theorem c10_symbol_space_mixup :
    Morse.SYMBOL_SPACE = 200 ∧
    Morse.SPACE_SYMBOL = 2 ∧
    Morse.sos_pattern.count 200 = 6 ∧
    Morse.transmit_symbol 200 = ("", []) ∧
    Morse.transmit_sos_buffer = "... --- ..." ∧
    Morse.transmit_sos_events =
      [Morse.SigEvent.signalOn 200, Morse.SigEvent.signalOn 200,
       Morse.SigEvent.signalOn 200, Morse.SigEvent.signalOff 600,
       Morse.SigEvent.signalOn 600, Morse.SigEvent.signalOn 600,
       Morse.SigEvent.signalOn 600, Morse.SigEvent.signalOff 600,
       Morse.SigEvent.signalOn 200, Morse.SigEvent.signalOn 200,
       Morse.SigEvent.signalOn 200, Morse.SigEvent.signalOff 1400] := by
  refine ⟨rfl, rfl, by decide, by decide, by decide, by decide⟩

/-- Witness for C4 (amended): the initialization evaluated at clock
reading 0. -/
theorem c4_witness :
    (Traffic.app_main_init 0).ctx.current_state = Traffic.STATE_RED ∧
    (Traffic.app_main_init 0).ctx.state_start_time = Traffic.millis 0 ∧
    (Traffic.app_main_init 0).lights =
      { red := false, yellow := false, green := false } ∧
    (Traffic.app_main_init 0).buzzer_duty = 0 :=
  c4_init_no_entry_action 0

/-- Witness for C8: the invariant instantiated after 120 update steps
(the step on which the frequency has just reached `FREQ_MAX`). -/
theorem c8_witness :
    Siren.FREQ_MIN ≤ (Siren.siren_update^[120] Siren.siren_init).buzzer_freq ∧
    (Siren.siren_update^[120] Siren.siren_init).buzzer_freq ≤ Siren.FREQ_MAX ∧
    (Siren.siren_update^[120] Siren.siren_init).buzzer_freq % Siren.FREQ_STEP = 0 ∧
    (Siren.siren_update (Siren.siren_update^[120] Siren.siren_init)).buzzer_freq =
      (if (Siren.siren_update^[120] Siren.siren_init).freq_up then
        (Siren.siren_update^[120] Siren.siren_init).buzzer_freq + Siren.FREQ_STEP
       else
        (Siren.siren_update^[120] Siren.siren_init).buzzer_freq - Siren.FREQ_STEP) :=
  c8_siren_frequency_invariant 120
